import Mathlib

/-!
Verification of the hookforms core against its specification.

Shallow embedding of the security-critical parts of the service:
`app/security.py` (SSRF URL vetting), `app/auth.py` (credential guard and
lockout), `app/middleware.py` (sliding-window rate limiter),
`app/channels/dispatcher.py` (notification fan-out and email rate limit),
`app/providers/resolver.py` (email-provider resolution),
`app/channels/format_value.py` (display-value formatter) and the Turnstile
gate of `app/routers/webhooks.py`.

External effects (DNS, the Redis counter store, the database, HTTP sends)
are passed in as explicit values or functions; a store round trip that can
fail is a `Fetch` value whose `down` constructor models an unreachable
store.
-/

namespace HookForms

/-- Result of a round trip to an external store (Redis, DNS, a verifier):
either the value, or the service was unreachable / raised. -/
inductive Fetch (α : Type) where
  | ok (a : α)
  | down
deriving DecidableEq

/-! ### app/security.py -/

/-- An IP address, IPv4 as a 32-bit value or IPv6 as a 128-bit value. -/
inductive IPAddr where
  | v4 (n : Nat)
  | v6 (n : Nat)
deriving DecidableEq

/-- Numeric value of a dotted-quad IPv4 address. -/
def ipv4 (a b c d : Nat) : Nat :=
  ((a * 256 + b) * 256 + c) * 256 + d

/-- CIDR membership: the address and the network base agree on the first
`bits` bits of a `width`-bit address. -/
def inNetwork (width n base bits : Nat) : Bool :=
  n / 2 ^ (width - bits) = base / 2 ^ (width - bits)

/-- The IPv4 entries of `_BLOCKED_NETWORKS` as (base, prefix-length). -/
def BLOCKED_NETWORKS_V4 : List (Nat × Nat) :=
  [(ipv4 10 0 0 0, 8), (ipv4 172 16 0 0, 12), (ipv4 192 168 0 0, 16),
   (ipv4 127 0 0 0, 8), (ipv4 169 254 0 0, 16), (ipv4 0 0 0 0, 8)]

/-- The IPv6 entries of `_BLOCKED_NETWORKS`: ::1/128, fc00::/7, fe80::/10. -/
def BLOCKED_NETWORKS_V6 : List (Nat × Nat) :=
  [(1, 128), (0xfc * 2 ^ 120, 7), (0xfe80 * 2 ^ 112, 10)]

/-- `_BLOCKED_HOSTNAMES`. -/
def BLOCKED_HOSTNAMES : List String :=
  ["localhost", "postgres", "redis", "api", "worker", "cloudflared",
   "nginx", "metadata", "metadata.google.internal"]

/-- `_is_ip_blocked`: an address string that fails to parse (`none`) is
blocked; otherwise the parsed address is checked against every blocked
network of its own family (a Python `ip in network` test across families
is `False`). -/
def isIpBlocked : Option IPAddr → Bool
  | none => true
  | some (.v4 n) => BLOCKED_NETWORKS_V4.any fun p => inNetwork 32 n p.1 p.2
  | some (.v6 n) => BLOCKED_NETWORKS_V6.any fun p => inNetwork 128 n p.1 p.2

/-- Python `str.lower`, written over the character list so that it
evaluates by kernel reduction. -/
def strToLower (s : String) : String :=
  ⟨s.data.map Char.toLower⟩

/-- The fields of `urllib.parse.urlparse` that `is_safe_url` reads. -/
structure Url where
  scheme : String
  hostname : Option String
deriving DecidableEq

/-- `is_safe_url`, parametrized by the DNS resolver: `resolve h` is `none`
on `socket.gaierror`, otherwise the parse results of every address
`getaddrinfo` returned for the host. -/
def is_safe_url (resolve : String → Option (List (Option IPAddr))) (u : Url) :
    Bool × String :=
  if ¬ (u.scheme = "http" ∨ u.scheme = "https") then
    (false, "Scheme not allowed. Use http or https.")
  else
    match u.hostname with
    | none => (false, "URL has no hostname")
    | some h =>
      if BLOCKED_HOSTNAMES.contains (strToLower h) then
        (false, "Hostname is not allowed")
      else
        match resolve h with
        | none => (false, "Cannot resolve hostname")
        | some addrs =>
          if addrs.any isIpBlocked then
            (false, "URL resolves to private/reserved IP address")
          else
            (true, "")

/-- Resolver mapping the cloud metadata literal to itself. -/
def metadataResolve : String → Option (List (Option IPAddr)) :=
  fun h => if h = "169.254.169.254" then
    some [some (.v4 (ipv4 169 254 169 254))] else none

/-- Resolver sending a non-blocked hostname to the IPv4 loopback. -/
def loopbackResolve : String → Option (List (Option IPAddr)) :=
  fun h => if h = "innocent.example.com" then
    some [some (.v4 (ipv4 127 0 0 1))] else none

/-- Resolver sending example.com to a public address. -/
def publicResolve : String → Option (List (Option IPAddr)) :=
  fun h => if h = "example.com" then
    some [some (.v4 (ipv4 93 184 216 34))] else none

/-- C1: `is_safe_url` rejects a URL whose scheme is not http or https, whose
hostname is in the blocked-hostname set, whose hostname does not resolve, or
any of whose resolved addresses lies in the blocked private / loopback /
link-local / unspecified ranges; it accepts a URL that passes the scheme and
hostname checks and resolves only to public addresses. Concretely,
`http://169.254.169.254/` is rejected, a host resolving to 127.0.0.1 is
rejected even though the hostname is not literally blocked, and
`https://example.com/hook` resolving to a public address is accepted. -/
theorem C1_is_safe_url_rules :
    (∀ (resolve : String → Option (List (Option IPAddr))) (u : Url),
      u.scheme ≠ "http" → u.scheme ≠ "https" → (is_safe_url resolve u).1 = false)
    ∧ (∀ (resolve : String → Option (List (Option IPAddr))) (u : Url) (h : String),
      u.hostname = some h → strToLower h ∈ BLOCKED_HOSTNAMES →
      (is_safe_url resolve u).1 = false)
    ∧ (∀ (resolve : String → Option (List (Option IPAddr))) (u : Url) (h : String),
      u.hostname = some h → resolve h = none → (is_safe_url resolve u).1 = false)
    ∧ (∀ (resolve : String → Option (List (Option IPAddr))) (u : Url) (h : String)
        (addrs : List (Option IPAddr)) (a : Option IPAddr),
      u.hostname = some h → resolve h = some addrs → a ∈ addrs →
      isIpBlocked a = true → (is_safe_url resolve u).1 = false)
    ∧ (∀ (resolve : String → Option (List (Option IPAddr))) (u : Url) (h : String)
        (addrs : List (Option IPAddr)),
      (u.scheme = "http" ∨ u.scheme = "https") → u.hostname = some h →
      strToLower h ∉ BLOCKED_HOSTNAMES → resolve h = some addrs →
      (∀ a ∈ addrs, isIpBlocked a = false) → (is_safe_url resolve u).1 = true)
    ∧ (is_safe_url metadataResolve ⟨"http", some "169.254.169.254"⟩).1 = false
    ∧ (is_safe_url loopbackResolve ⟨"http", some "innocent.example.com"⟩).1 = false
    ∧ (is_safe_url publicResolve ⟨"https", some "example.com"⟩).1 = true := by
  refine ⟨?_, ?_, ?_, ?_, ?_, by decide, by decide, by decide⟩
  · intro resolve u h1 h2
    simp [is_safe_url, h1, h2]
  · intro resolve u h hh hb
    obtain ⟨sch, host⟩ := u
    simp only at hh
    subst hh
    by_cases hs : sch = "http" ∨ sch = "https"
    · simp [is_safe_url, hs, hb]
    · simp [is_safe_url, hs]
  · intro resolve u h hh hr
    obtain ⟨sch, host⟩ := u
    simp only at hh
    subst hh
    by_cases hs : sch = "http" ∨ sch = "https"
    · by_cases hb : strToLower h ∈ BLOCKED_HOSTNAMES
      · simp [is_safe_url, hs, hb]
      · simp [is_safe_url, hs, hb, hr]
    · simp [is_safe_url, hs]
  · intro resolve u h addrs a hh hr ha hblk
    obtain ⟨sch, host⟩ := u
    simp only at hh
    subst hh
    by_cases hs : sch = "http" ∨ sch = "https"
    · by_cases hb : strToLower h ∈ BLOCKED_HOSTNAMES
      · simp [is_safe_url, hs, hb]
      · have hany : ∃ x ∈ addrs, isIpBlocked x = true := ⟨a, ha, hblk⟩
        simp [is_safe_url, hs, hb, hr, hany]
    · simp [is_safe_url, hs]
  · intro resolve u h addrs hs hh hb hr hall
    obtain ⟨sch, host⟩ := u
    simp only at hh hs
    subst hh
    have hany : ¬ ∃ x ∈ addrs, isIpBlocked x = true := by
      rintro ⟨a, ha, hblk⟩
      rw [hall a ha] at hblk
      exact Bool.false_ne_true hblk
    simp [is_safe_url, hs, hb, hr, hany]

/-- Witness for C1: the first conjunct applied to a concrete ftp URL. -/
theorem C1_is_safe_url_rules_witness :
    (is_safe_url (fun _ => none) ⟨"ftp", some "example.com"⟩).1 = false :=
  C1_is_safe_url_rules.1 (fun _ => none) ⟨"ftp", some "example.com"⟩
    (by decide) (by decide)

/-! ### app/auth.py

The per-IP failure counter lives in Redis under `auth_fail:{ip}` and is
given a 300 second expiry on its first increment, so a stored count is by
construction a count of failures recorded within the active 300-second
window.  A `Fetch (Option Nat)` models the guard's view of that counter:
`ok none` when the key is absent, `ok (some c)` when it holds `c`, and
`down` when Redis is unreachable. -/

def LOCKOUT_THRESHOLD : Nat := 10

def LOCKOUT_WINDOW : Nat := 300

/-- One row of the `api_keys` table as the guard reads it. -/
structure ApiKeyRec where
  id : Nat
  keyPfx : Option String
  keyHash : String
  isActive : Bool
deriving DecidableEq

/-- Outcome of `get_current_key`. -/
inductive AuthResult where
  | missingKey
  | tooManyAttempts
  | adminIdentity
  | matched (k : ApiKeyRec)
  | invalidKey
deriving DecidableEq

/-- `_check_lockout`: true when the request must be refused with 429.  A
store error is swallowed (`down` never locks), and an absent counter never
locks. -/
def _check_lockout (failCount : Fetch (Option Nat)) : Bool :=
  match failCount with
  | .ok (some c) => LOCKOUT_THRESHOLD ≤ c
  | .ok none => false
  | .down => false

/-- `_record_failure`: increment the counter, setting the expiry only when
the incremented value is 1; a store error is swallowed and leaves the store
as it was.  Returns the new store view and whether the expiry was set. -/
def _record_failure (store : Fetch (Option Nat)) : Fetch (Option Nat) × Bool :=
  match store with
  | .down => (.down, false)
  | .ok none => (.ok (some 1), true)
  | .ok (some c) => (.ok (some (c + 1)), c + 1 = 1)

/-- `_clear_failure`: delete the counter key; a store error is swallowed. -/
def _clear_failure (store : Fetch (Option Nat)) : Fetch (Option Nat) :=
  match store with
  | .down => .down
  | .ok _ => .ok none

/-- `api_key[:12] if len(api_key) >= 12 else api_key`. -/
def lookupPfx (apiKey : String) : String :=
  if 12 ≤ apiKey.length then apiKey.take 12 else apiKey

/-- The candidate rows of the two prefix queries: active keys with the
presented key's prefix, or — when that set is empty — active keys with no
stored prefix (legacy records). -/
def candidateKeys (db : List ApiKeyRec) (pfx : String) : List ApiKeyRec :=
  let withPfx := db.filter fun k => k.isActive && k.keyPfx == some pfx
  if withPfx.isEmpty then db.filter fun k => k.isActive && k.keyPfx == none
  else withPfx

/-- `get_current_key`, parametrized by the hash verifier (pbkdf2 `verify`)
and the configured admin secret.  `apiKey = none` models a missing header;
the empty string is likewise falsy in Python. -/
def get_current_key (verify : String → String → Bool) (adminApiKey : String)
    (db : List ApiKeyRec) (failCount : Fetch (Option Nat))
    (apiKey : Option String) : AuthResult :=
  match apiKey with
  | none => .missingKey
  | some k =>
    if k = "" then .missingKey
    else if _check_lockout failCount then .tooManyAttempts
    else if k = adminApiKey then .adminIdentity
    else
      match (candidateKeys db (lookupPfx k)).find? (fun r => verify k r.keyHash) with
      | some r => .matched r
      | none => .invalidKey

/-- `get_current_key` together with its effect on the failure counter:
success clears the counter, a failed match records a failure, and the
lockout answer leaves the counter alone. -/
def get_current_key_full (verify : String → String → Bool) (adminApiKey : String)
    (db : List ApiKeyRec) (store : Fetch (Option Nat)) (apiKey : Option String) :
    AuthResult × Fetch (Option Nat) :=
  match get_current_key verify adminApiKey db store apiKey with
  | .adminIdentity => (.adminIdentity, _clear_failure store)
  | .matched r => (.matched r, _clear_failure store)
  | .invalidKey => (.invalidKey, (_record_failure store).1)
  | r => (r, store)

/-- C2: once the client address has accumulated at least 10 recorded
failures within the active 300-second window, the next verification from
that address answers TooManyAttempts — for every hash verifier, every
admin secret and every key table, hence before and regardless of any
secret comparison, even when the presented secret is the admin secret or
one that a stored hash would verify. -/
theorem C2_lockout_before_comparison
    (verify : String → String → Bool) (adminApiKey : String)
    (db : List ApiKeyRec) (c : Nat) (k : String)
    (hc : LOCKOUT_THRESHOLD ≤ c) (hk : k ≠ "") :
    get_current_key verify adminApiKey db (.ok (some c)) (some k) =
      .tooManyAttempts := by
  simp [get_current_key, _check_lockout, hk, hc]

/-- Witness for C2: the 11th attempt with the correct admin secret, after a
counter of 10, is refused. -/
theorem C2_lockout_before_comparison_witness :
    get_current_key (fun _ _ => true) "hf_admin" [] (.ok (some 10))
      (some "hf_admin") = .tooManyAttempts :=
  C2_lockout_before_comparison (fun _ _ => true) "hf_admin" [] 10 "hf_admin"
    (by decide) (by decide)

/-! ### app/middleware.py — RateLimitMiddleware

The per-IP window lives in a Redis sorted set: one member per request, the
member string being the textual form of the `time.time()` float and the
score that same number.  Times are modelled as rationals (every observed
`time.time()` value is one, and they are nonnegative); the set is a list
of scores in insertion order, and `zadd` of an already-present score is a
no-op on the cardinality, exactly as for the real sorted set. -/

def WINDOW_SECONDS : Nat := 60

def RATE_LIMIT : Nat := 100

/-- `zremrangebyscore(key, 0, now - 60)`: drop every entry with score at
most `now - 60`. -/
def pruneWindow (window : List ℚ) (now : ℚ) : List ℚ :=
  window.filter fun t => now - (WINDOW_SECONDS : ℚ) < t

/-- The rate-limit metadata attached to the response
(`X-RateLimit-Limit` / `-Remaining` / `-Reset`). -/
structure RateMeta where
  limit : Nat
  remaining : Nat
  resetAt : Int
deriving DecidableEq

/-- Outcome of the middleware for one request. -/
inductive RateOutcome where
  | allowed (meta : RateMeta)
  | rateLimited (meta : RateMeta)
  | serviceUnavailable
  | healthBypass
deriving DecidableEq

/-- The pipeline body: prune, count, add the new entry (a duplicate score
is the same sorted-set member and does not grow the set), then decide on
the pre-increment count.  `int(now + 60)` is floor on the nonnegative
times the clock produces.  Returns the outcome and the new window. -/
def rateLimitStep (window : List ℚ) (now : ℚ) : RateOutcome × List ℚ :=
  let pruned := pruneWindow window now
  let currentCount := pruned.length
  let newWindow := if pruned.contains now then pruned else pruned ++ [now]
  let resetAt : Int := (now + (WINDOW_SECONDS : ℚ)).floor
  if RATE_LIMIT ≤ currentCount then
    (.rateLimited ⟨RATE_LIMIT, 0, resetAt⟩, newWindow)
  else
    (.allowed ⟨RATE_LIMIT, RATE_LIMIT - currentCount - 1, resetAt⟩, newWindow)

/-- `RateLimitMiddleware.dispatch`: the health path bypasses the limiter
before Redis is touched; an unreachable store turns every other request
into a 503; otherwise the pipeline runs. -/
def rateLimitDispatch (path : String) (store : Fetch (List ℚ)) (now : ℚ) :
    RateOutcome × Fetch (List ℚ) :=
  if path = "/health" then (.healthBypass, store)
  else
    match store with
    | .down => (.serviceUnavailable, .down)
    | .ok window =>
      let r := rateLimitStep window now
      (r.1, .ok r.2)

/-- One run of consecutive requests from one address against an initially
given window, yielding the per-request outcomes. -/
def runRequests : List ℚ → List ℚ → List RateOutcome
  | _, [] => []
  | w, t :: ts =>
    let r := rateLimitStep w t
    r.1 :: runRequests r.2 ts

/-- The outcome the limiter gives the request whose pre-increment count is
`j`, stamped at `t`. -/
def windowOutcome (j : Nat) (t : ℚ) : RateOutcome :=
  if RATE_LIMIT ≤ j then .rateLimited ⟨RATE_LIMIT, 0, (t + (WINDOW_SECONDS : ℚ)).floor⟩
  else .allowed ⟨RATE_LIMIT, RATE_LIMIT - j - 1, (t + (WINDOW_SECONDS : ℚ)).floor⟩

lemma pruneWindow_eq_self (w : List ℚ) (now : ℚ)
    (h : ∀ x ∈ w, now - (WINDOW_SECONDS : ℚ) < x) : pruneWindow w now = w :=
  List.filter_eq_self.mpr fun x hx => by simpa using h x hx

lemma rateLimitStep_fresh (w : List ℚ) (now : ℚ)
    (hw : ∀ x ∈ w, now - (WINDOW_SECONDS : ℚ) < x) (hmem : now ∉ w) :
    rateLimitStep w now = (windowOutcome w.length now, w ++ [now]) := by
  have hc : w.contains now = false := by simpa using hmem
  by_cases hl : RATE_LIMIT ≤ w.length
  · simp [rateLimitStep, windowOutcome, pruneWindow_eq_self w now hw, hc, hl, hmem]
  · simp [rateLimitStep, windowOutcome, pruneWindow_eq_self w now hw, hc, hl, hmem]

/-- Within a burst whose times are strictly increasing and pairwise less
than one window apart, the request at index `i` sees exactly the `i`
earlier entries: nothing has been pruned and nothing collapsed. -/
lemma runRequests_burst : ∀ (ts w : List ℚ) (i : Nat) (t : ℚ),
    List.Sorted (· < ·) (w ++ ts) →
    (∀ a ∈ w ++ ts, ∀ b ∈ w ++ ts, b - a < (WINDOW_SECONDS : ℚ)) →
    ts[i]? = some t →
    (runRequests w ts)[i]? = some (windowOutcome (w.length + i) t)
  | [], _, i, t, _, _, hget => by simp at hget
  | t' :: ts, w, i, t, hsort, hspan, hget => by
    have hw : ∀ x ∈ w, t' - (WINDOW_SECONDS : ℚ) < x := by
      intro x hx
      have := hspan x (List.mem_append_left _ hx) t'
        (List.mem_append_right _ (List.mem_cons_self _ _))
      linarith
    have hmem : t' ∉ w := by
      intro hx
      have := (List.pairwise_append.mp hsort).2.2 t' hx t' (List.mem_cons_self _ _)
      exact lt_irrefl _ this
    have hstep := rateLimitStep_fresh w t' hw hmem
    match i with
    | 0 =>
      have ht : t = t' := by simpa using hget.symm
      subst ht
      simp [runRequests, hstep]
    | j + 1 =>
      have hassoc : (w ++ [t]) ++ ts = w ++ t :: ts → True := fun _ => trivial
      have hL : (w ++ [t']) ++ ts = w ++ t' :: ts := by
        rw [List.append_assoc]
        rfl
      have hsort2 : List.Sorted (· < ·) ((w ++ [t']) ++ ts) := by
        rw [hL]
        exact hsort
      have hspan2 : ∀ a ∈ (w ++ [t']) ++ ts, ∀ b ∈ (w ++ [t']) ++ ts,
          b - a < (WINDOW_SECONDS : ℚ) := by
        rw [hL]
        exact hspan
      have hget2 : ts[j]? = some t := by simpa using hget
      have ih := runRequests_burst ts (w ++ [t']) j t hsort2 hspan2 hget2
      have hlen : (w ++ [t']).length + j = w.length + (j + 1) := by
        simp
        omega
      rw [hlen] at ih
      simpa [runRequests, hstep] using ih

/-- C3: each call prunes entries older than now minus 60 seconds, counts
the rest, then adds one entry stamped now; a pre-increment count of at
least 100 answers RateLimited with limit 100, remaining 0 and the reset
time, otherwise the request is allowed with limit, remaining and reset
time attached; hence in a burst of strictly increasing times less than 60
seconds apart the 100th request (index 99) is allowed with remaining 0,
the 101st is refused, and a request all of whose window entries are at
least 60 seconds old is allowed again. -/
theorem C3_sliding_window :
    (∀ (w : List ℚ) (now : ℚ), RATE_LIMIT ≤ (pruneWindow w now).length →
      (rateLimitStep w now).1 =
        .rateLimited ⟨RATE_LIMIT, 0, (now + (WINDOW_SECONDS : ℚ)).floor⟩)
    ∧ (∀ (w : List ℚ) (now : ℚ), (pruneWindow w now).length < RATE_LIMIT →
      (rateLimitStep w now).1 =
        .allowed ⟨RATE_LIMIT, RATE_LIMIT - (pruneWindow w now).length - 1,
          (now + (WINDOW_SECONDS : ℚ)).floor⟩)
    ∧ (∀ (w : List ℚ) (now : ℚ),
      (rateLimitStep w now).2 =
        (if (pruneWindow w now).contains now then pruneWindow w now
         else pruneWindow w now ++ [now]))
    ∧ (∀ (ts : List ℚ) (t : ℚ), List.Sorted (· < ·) ts →
      (∀ a ∈ ts, ∀ b ∈ ts, b - a < (WINDOW_SECONDS : ℚ)) → ts[99]? = some t →
      (runRequests [] ts)[99]? =
        some (.allowed ⟨RATE_LIMIT, 0, (t + (WINDOW_SECONDS : ℚ)).floor⟩))
    ∧ (∀ (ts : List ℚ) (t : ℚ), List.Sorted (· < ·) ts →
      (∀ a ∈ ts, ∀ b ∈ ts, b - a < (WINDOW_SECONDS : ℚ)) → ts[100]? = some t →
      (runRequests [] ts)[100]? =
        some (.rateLimited ⟨RATE_LIMIT, 0, (t + (WINDOW_SECONDS : ℚ)).floor⟩))
    ∧ (∀ (w : List ℚ) (now : ℚ), (∀ x ∈ w, x ≤ now - (WINDOW_SECONDS : ℚ)) →
      (rateLimitStep w now).1 =
        .allowed ⟨RATE_LIMIT, RATE_LIMIT - 1, (now + (WINDOW_SECONDS : ℚ)).floor⟩) := by
  refine ⟨?_, ?_, ?_, ?_, ?_, ?_⟩
  · intro w now hc
    simp [rateLimitStep, hc]
  · intro w now hc
    simp [rateLimitStep, Nat.not_le.mpr hc]
  · intro w now
    by_cases hmem : (pruneWindow w now).contains now
    · by_cases hc : RATE_LIMIT ≤ (pruneWindow w now).length
      · simp [rateLimitStep, hmem, hc]
      · simp [rateLimitStep, hmem, hc]
    · by_cases hc : RATE_LIMIT ≤ (pruneWindow w now).length
      · simp [rateLimitStep, hmem, hc]
      · simp [rateLimitStep, hmem, hc]
  · intro ts t hsort hspan hget
    have := runRequests_burst ts [] 99 t (by simpa using hsort)
      (by simpa using hspan) hget
    simpa [windowOutcome, RATE_LIMIT] using this
  · intro ts t hsort hspan hget
    have := runRequests_burst ts [] 100 t (by simpa using hsort)
      (by simpa using hspan) hget
    simpa [windowOutcome, RATE_LIMIT] using this
  · intro w now hold
    have hempty : pruneWindow w now = [] := by
      rw [pruneWindow, List.filter_eq_nil_iff]
      intro x hx
      simpa using not_lt.mpr (hold x hx)
    simp [rateLimitStep, hempty, RATE_LIMIT]

/-- Witness for C3: with an empty window, a request at time 0 is allowed
with the full limit minus one remaining. -/
theorem C3_sliding_window_witness :
    (rateLimitStep [] 0).1 =
      .allowed ⟨RATE_LIMIT, RATE_LIMIT - 1, ((0 : ℚ) + (WINDOW_SECONDS : ℚ)).floor⟩ :=
  C3_sliding_window.2.2.2.2.2 [] 0 (by simp)

/-- C4: with the counter store unreachable the governor refuses every
request with ServiceUnavailable — it never lets one through silently —
except that the health-check path is passed through without touching the
limiter at all, whatever the store's state. -/
theorem C4_fails_closed :
    (∀ (path : String) (now : ℚ), path ≠ "/health" →
      (rateLimitDispatch path .down now).1 = .serviceUnavailable)
    ∧ (∀ (store : Fetch (List ℚ)) (now : ℚ),
      rateLimitDispatch "/health" store now = (.healthBypass, store)) := by
  constructor
  · intro path now hp
    simp [rateLimitDispatch, hp]
  · intro store now
    simp [rateLimitDispatch]

/-- Witness for C4: a request to the webhook receive path with the store
down is refused with 503. -/
theorem C4_fails_closed_witness :
    (rateLimitDispatch "/hooks/demo" .down 5).1 = .serviceUnavailable :=
  C4_fails_closed.1 "/hooks/demo" 5 (by decide)

/-! ### app/channels/detect.py and app/channels/dispatcher.py

Formatters and the HTTP send are passed in as functions returning
`Except Unit _`: an `error` is an exception raised while formatting or
sending.  The payload type is abstract — nothing in the dispatcher
inspects it. -/

/-- Whether `pat` occurs as a contiguous run inside `s`. -/
def listIsInfix (pat : List Char) : List Char → Bool
  | [] => pat.isEmpty
  | c :: rest => pat.isPrefixOf (c :: rest) || listIsInfix pat rest

/-- Python `in` on strings: substring containment, tested over the
character lists so that it evaluates by kernel reduction. -/
def strContains (s pat : String) : Bool :=
  listIsInfix pat.data s.data

/-- `detect_channel_type`. -/
def detect_channel_type (url : String) : String :=
  let u := strToLower url
  if strContains u "discord.com/api/webhooks" then "discord"
  else if strContains u "hooks.slack.com/" then "slack"
  else if strContains u "webhook.office.com" || strContains u "logic.azure.com" then "teams"
  else if strContains u "api.telegram.org/bot" then "telegram"
  else if strContains u "ntfy.sh/" then "ntfy"
  else "webhook"

/-- The `recipients` entry of an email channel's config: a literal list, a
comma-separated string, or absent (`config.get("recipients", [])`). -/
inductive RecipVal where
  | listVal (l : List String)
  | strVal (s : String)
  | absent
deriving DecidableEq

/-- The config keys the dispatcher reads: `config.get("url", "")` and
`config.get("recipients", [])`. -/
structure ChannelConfig where
  url : String
  recipients : RecipVal
deriving DecidableEq

/-- One `notification_channels` row as the dispatcher reads it. -/
structure Channel where
  id : Nat
  chType : String
  config : ChannelConfig
  isActive : Bool
deriving DecidableEq

/-- `[r.strip() for r in recipients.split(",") if r.strip()]`. -/
def splitRecipients (s : String) : List String :=
  ((s.splitOn ",").map String.trim).filter fun r => r ≠ ""

/-- The recipient list an email channel contributes. -/
def recipientList : RecipVal → List String
  | .listVal l => l
  | .strVal s => splitRecipients s
  | .absent => []

/-- The effective channel type: a `webhook` channel with a nonempty URL is
re-typed by `detect_channel_type` when detection yields something other
than `webhook`. -/
def effectiveType (c : Channel) : String :=
  if c.chType = "webhook" then
    if c.config.url ≠ "" then
      let d := detect_channel_type c.config.url
      if d ≠ "webhook" then d else c.chType
    else c.chType
  else c.chType

/-- The channel types served by an HTTP formatter in the dispatch chain. -/
def KNOWN_HTTP_TYPES : List String :=
  ["discord", "slack", "teams", "telegram", "ntfy", "webhook"]

/-- What the per-channel loop body contributes for one channel. -/
inductive PrepResult (P : Type) where
  | task (p : P)
  | emails (rs : List String)
  | unknownType
  | prepError
deriving DecidableEq

/-- The body of the dispatch loop for one active channel: resolve the
effective type, format (an exception is caught and logged as `prepError`),
or collect email recipients, or log an unknown type. -/
def prepChannel {P : Type} (fmt : String → ChannelConfig → Except Unit P)
    (c : Channel) : PrepResult P :=
  let t := effectiveType c
  if KNOWN_HTTP_TYPES.contains t then
    match fmt t c.config with
    | .ok p => .task p
    | .error _ => .prepError
  else if t = "email" then .emails (recipientList c.config.recipients)
  else .unknownType

/-- The dispatch loop over all channels: inactive channels are skipped,
tasks and email recipients are accumulated in order. -/
def gatherTasks {P : Type} (fmt : String → ChannelConfig → Except Unit P) :
    List Channel → List P × List String
  | [] => ([], [])
  | c :: cs =>
    let rest := gatherTasks fmt cs
    if c.isActive then
      match prepChannel fmt c with
      | .task p => (p :: rest.1, rest.2)
      | .emails rs => (rest.1, rs ++ rest.2)
      | _ => rest
    else rest

/-- Outcome of `_send_notification` for one task: every exception is
caught, and a status (of either kind) is only logged. -/
inductive SendResult where
  | delivered (status : Nat)
  | sendFailed
deriving DecidableEq

/-- `_send_notification`: run the HTTP send; an exception becomes a logged
failure, a response — any status — a logged delivery. -/
def runTask {P : Type} (send : P → Except Unit Nat) (p : P) : SendResult :=
  match send p with
  | .ok s => .delivered s
  | .error _ => .sendFailed

/-- The per-destination outcomes of the concurrent HTTP batch
(`asyncio.gather` with `return_exceptions=True`). -/
def dispatchHttpOutcomes {P : Type} (fmt : String → ChannelConfig → Except Unit P)
    (send : P → Except Unit Nat) (channels : List Channel) : List SendResult :=
  (gatherTasks fmt channels).1.map (runTask send)

lemma gatherTasks_append {P : Type} (fmt : String → ChannelConfig → Except Unit P)
    (xs ys : List Channel) :
    gatherTasks fmt (xs ++ ys) =
      ((gatherTasks fmt xs).1 ++ (gatherTasks fmt ys).1,
       (gatherTasks fmt xs).2 ++ (gatherTasks fmt ys).2) := by
  induction xs with
  | nil => simp [gatherTasks]
  | cons c cs ih =>
    by_cases hact : c.isActive
    · cases hp : prepChannel fmt c <;>
        simp [gatherTasks, hact, hp, ih]
    · simp [gatherTasks, hact, ih]

/-- The five channels of the C5 scenario, all active `webhook` channels
with plain endpoint URLs. -/
def scenarioChannels : List Channel :=
  [⟨1, "webhook", ⟨"https://endpoint.example.com/1", .absent⟩, true⟩,
   ⟨2, "webhook", ⟨"https://endpoint.example.com/2", .absent⟩, true⟩,
   ⟨3, "webhook", ⟨"https://endpoint.example.com/3", .absent⟩, true⟩,
   ⟨4, "webhook", ⟨"https://endpoint.example.com/4", .absent⟩, true⟩,
   ⟨5, "webhook", ⟨"https://endpoint.example.com/5", .absent⟩, true⟩]

/-- A formatter that raises on channel 3's config and yields the config's
URL as payload otherwise. -/
def scenarioFmt : String → ChannelConfig → Except Unit String :=
  fun _ cfg => if cfg.url = "https://endpoint.example.com/3" then .error ()
    else .ok cfg.url

/-- C5: an HTTP delivery that returns a status of at least 400 is a logged
outcome of the batch, not a failure of it; the batch's outcome list is
compositional in the channel list, and a channel whose preparation raises
contributes nothing while leaving every other channel's outcome unchanged.
Dispatching the 5-channel scenario in which channel 3 raises during
formatting still delivers to the other 4. -/
theorem C5_failure_isolation :
    (∀ (P : Type) (send : P → Except Unit Nat) (p : P) (s : Nat),
      send p = .ok s → 400 ≤ s → runTask send p = .delivered s)
    ∧ (∀ (P : Type) (fmt : String → ChannelConfig → Except Unit P)
        (send : P → Except Unit Nat) (xs ys : List Channel),
      dispatchHttpOutcomes fmt send (xs ++ ys) =
        dispatchHttpOutcomes fmt send xs ++ dispatchHttpOutcomes fmt send ys)
    ∧ (∀ (P : Type) (fmt : String → ChannelConfig → Except Unit P)
        (send : P → Except Unit Nat) (xs ys : List Channel) (c : Channel),
      prepChannel fmt c = .prepError →
      dispatchHttpOutcomes fmt send (xs ++ c :: ys) =
        dispatchHttpOutcomes fmt send (xs ++ ys))
    ∧ dispatchHttpOutcomes scenarioFmt (fun _ => .ok 200) scenarioChannels =
        [.delivered 200, .delivered 200, .delivered 200, .delivered 200] := by
  refine ⟨?_, ?_, ?_, by decide⟩
  · intro P send p s hs _
    simp [runTask, hs]
  · intro P fmt send xs ys
    simp [dispatchHttpOutcomes, gatherTasks_append]
  · intro P fmt send xs ys c hp
    by_cases hact : c.isActive
    · simp [dispatchHttpOutcomes, gatherTasks_append, gatherTasks, hact, hp]
    · simp [dispatchHttpOutcomes, gatherTasks_append, gatherTasks, hact]

/-- Witness for C5: a 500 response is a logged delivery outcome. -/
theorem C5_failure_isolation_witness :
    runTask (fun _ : Unit => Except.ok 500) () = .delivered 500 :=
  C5_failure_isolation.1 Unit (fun _ => .ok 500) () 500 rfl (by decide)

/-! ### app/channels/dispatcher.py — email batch

The per-inbox counter `channel_email_rate:{inbox.id}` is an atomic
increment whose expiry (600 s) is set only when the incremented value is
1.  `Fetch Nat` is the guard's view of the counter before the increment
(`ok 0` when the key is absent); `down` models an unreachable store, whose
exception the dispatcher swallows with a warning. -/

/-- What the email batch of `dispatch_notifications` did. -/
structure EmailPhaseResult where
  didIncr : Bool
  expirySet : Bool
  rateLimitLogged : Bool
  storeWarnLogged : Bool
  sent : List String
deriving DecidableEq

/-- The email batch: nothing happens without collected recipients and a
resolved provider; otherwise the counter is incremented (expiry on first
increment), a post-increment count above 10 discards the recipients with
a logged rate-limit event, a store error is swallowed, and whatever
recipient set survives is sent. -/
def emailPhase (incrStore : Fetch Nat) (recipients : List String)
    (hasProvider : Bool) : EmailPhaseResult :=
  if recipients.isEmpty || !hasProvider then
    ⟨false, false, false, false, []⟩
  else
    match incrStore with
    | .down => ⟨false, false, false, true, recipients⟩
    | .ok prev =>
      let count := prev + 1
      if 10 < count then ⟨true, count = 1, true, false, []⟩
      else ⟨true, count = 1, false, false, recipients⟩

/-- `_send_emails`: one send per recipient, gathered with exceptions
captured, so each outcome is a value and no failure propagates. -/
def sendEmailsOutcomes (sendE : String → Except Unit Unit)
    (recipients : List String) : List Bool :=
  recipients.map fun r =>
    match sendE r with
    | .ok _ => true
    | .error _ => false

/-- Counterexample to C6 as stated: a dispatch that collected a recipient
but resolved no provider does not touch the email counter at all (and
sends nothing), so the counter increment is not unconditional on
recipients having been collected. -/
theorem C6_counterexample :
    ¬ (∀ (store : Fetch Nat) (recipients : List String) (hasProvider : Bool),
        recipients ≠ [] →
        (emailPhase store recipients hasProvider).didIncr = true) := by
  intro hclaim
  have := hclaim (.ok 0) ["user@example.com"] false (by simp)
  simp [emailPhase] at this

/-- C6 (amended): for every dispatch in which email recipients were
collected and a provider was resolved, the counter is incremented with the
expiry set only on the first increment; a post-increment count above 10
discards the recipients and logs a rate-limit event sending nothing,
otherwise every collected recipient is sent, each send isolated; hence
attempts 1 through 10 of a 600-second window send and the 11th sends
nothing. -/
theorem C6_email_rate_limit :
    (∀ (prev : Nat) (recipients : List String), recipients ≠ [] →
      emailPhase (.ok prev) recipients true =
        (if 10 < prev + 1 then ⟨true, prev + 1 = 1, true, false, []⟩
         else ⟨true, prev + 1 = 1, false, false, recipients⟩))
    ∧ (∀ (sendE : String → Except Unit Unit) (xs ys : List String) (r : String),
      sendEmailsOutcomes sendE (xs ++ r :: ys) =
        sendEmailsOutcomes sendE xs ++ sendEmailsOutcomes sendE [r] ++
          sendEmailsOutcomes sendE ys)
    ∧ (∀ k : Nat, 1 ≤ k → k ≤ 10 →
      (emailPhase (.ok (k - 1)) ["user@example.com"] true).sent =
        ["user@example.com"]
      ∧ (emailPhase (.ok (k - 1)) ["user@example.com"] true).expirySet = (k = 1)
      ∧ (emailPhase (.ok (k - 1)) ["user@example.com"] true).rateLimitLogged = false)
    ∧ (emailPhase (.ok 10) ["user@example.com"] true).sent = []
    ∧ (emailPhase (.ok 10) ["user@example.com"] true).rateLimitLogged = true := by
  refine ⟨?_, ?_, ?_, by decide, by decide⟩
  · intro prev recipients hr
    obtain ⟨a, as, rfl⟩ := List.exists_cons_of_ne_nil hr
    by_cases h10 : 10 < prev + 1
    · simp [emailPhase, h10]
    · simp [emailPhase, h10]
  · intro sendE xs ys r
    simp [sendEmailsOutcomes]
  · intro k hk1 hk10
    have hk : k - 1 + 1 = k := Nat.succ_pred_eq_of_pos hk1
    have hnot : ¬ 10 < k := Nat.not_lt.mpr hk10
    refine ⟨?_, ?_, ?_⟩
    · simp [emailPhase, hk, hnot]
    · simp [emailPhase, hk, hnot]
    · simp [emailPhase, hk, hnot]

/-- Witness for C6: the first attempt of a window sends to the collected
recipient. -/
theorem C6_email_rate_limit_witness :
    (emailPhase (.ok 0) ["user@example.com"] true).sent = ["user@example.com"] :=
  (C6_email_rate_limit.2.2.1 1 (by decide) (by decide)).1

/-! ### app/providers/resolver.py -/

/-- One `email_providers` row as the resolver reads it. -/
structure ProviderRec where
  id : Nat
  inboxId : Option Nat
  ptype : String
  isActive : Bool
deriving DecidableEq

/-- A constructed provider instance: either built from a database record,
or the legacy file-based Gmail transport built from process settings. -/
inductive ResolvedProvider where
  | fromRecord (r : ProviderRec)
  | legacyGmail
deriving DecidableEq

/-- SQLAlchemy `scalar_one_or_none`: none for no row, the row when unique,
an error when several rows match. -/
def scalarOneOrNone {α : Type} : List α → Except Unit (Option α)
  | [] => .ok none
  | [a] => .ok (some a)
  | _ => .error ()

/-- The provider types `_build_provider` can instantiate. -/
def KNOWN_PROVIDER_TYPES : List String :=
  ["gmail", "resend", "sendgrid", "smtp"]

/-- `_build_provider`: an unknown type raises `ValueError`. -/
def buildProvider (r : ProviderRec) : Except Unit ResolvedProvider :=
  if KNOWN_PROVIDER_TYPES.contains r.ptype then .ok (.fromRecord r)
  else .error ()

/-- The rows of the inbox-scoped active query. -/
def inboxScopedActive (db : List ProviderRec) (inboxId : Nat) : List ProviderRec :=
  db.filter fun r => r.inboxId == some inboxId && r.isActive

/-- The rows of the globally-scoped active query. -/
def globalActive (db : List ProviderRec) : List ProviderRec :=
  db.filter fun r => r.inboxId == none && r.isActive

/-- `resolve_email_provider`: inbox-scoped active row first, then global
active row, then the legacy settings-based Gmail transport (`none` when it
is not configured). -/
def resolve_email_provider (db : List ProviderRec) (inboxId : Nat)
    (legacy : Option ResolvedProvider) : Except Unit (Option ResolvedProvider) :=
  match scalarOneOrNone (inboxScopedActive db inboxId) with
  | .error _ => .error ()
  | .ok (some s) => (buildProvider s).map some
  | .ok none =>
    match scalarOneOrNone (globalActive db) with
    | .error _ => .error ()
    | .ok (some g) => (buildProvider g).map some
    | .ok none => .ok legacy

/-- C7: provider resolution answers the first available of (1) the active
inbox-scoped provider, (2) the active global provider, (3) the legacy
statically-configured transport, (4) nothing — and with recipients but no
provider the email batch does nothing and raises nothing. -/
theorem C7_provider_resolution :
    (∀ (db : List ProviderRec) (inboxId : Nat) (legacy : Option ResolvedProvider)
        (s : ProviderRec),
      inboxScopedActive db inboxId = [s] →
      s.ptype ∈ KNOWN_PROVIDER_TYPES →
      resolve_email_provider db inboxId legacy = .ok (some (.fromRecord s)))
    ∧ (∀ (db : List ProviderRec) (inboxId : Nat) (legacy : Option ResolvedProvider)
        (g : ProviderRec),
      inboxScopedActive db inboxId = [] → globalActive db = [g] →
      g.ptype ∈ KNOWN_PROVIDER_TYPES →
      resolve_email_provider db inboxId legacy = .ok (some (.fromRecord g)))
    ∧ (∀ (db : List ProviderRec) (inboxId : Nat) (legacy : Option ResolvedProvider),
      inboxScopedActive db inboxId = [] → globalActive db = [] →
      resolve_email_provider db inboxId legacy = .ok legacy)
    ∧ (∀ (store : Fetch Nat) (recipients : List String),
      emailPhase store recipients false = ⟨false, false, false, false, []⟩) := by
  refine ⟨?_, ?_, ?_, ?_⟩
  · intro db inboxId legacy s hs hknown
    simp [resolve_email_provider, hs, scalarOneOrNone, buildProvider, hknown,
      Except.map]
  · intro db inboxId legacy g hs hg hknown
    simp [resolve_email_provider, hs, hg, scalarOneOrNone, buildProvider, hknown,
      Except.map]
  · intro db inboxId legacy hs hg
    simp [resolve_email_provider, hs, hg, scalarOneOrNone]
  · intro store recipients
    simp [emailPhase]

/-- Witness for C7: an inbox-scoped active Resend provider wins over a
global one and the legacy transport. -/
theorem C7_provider_resolution_witness :
    resolve_email_provider
      [⟨1, some 7, "resend", true⟩, ⟨2, none, "smtp", true⟩] 7
      (some .legacyGmail) =
      .ok (some (.fromRecord ⟨1, some 7, "resend", true⟩)) :=
  C7_provider_resolution.1
    [⟨1, some 7, "resend", true⟩, ⟨2, none, "smtp", true⟩] 7
    (some .legacyGmail) ⟨1, some 7, "resend", true⟩ (by decide) (by decide)

/-! ### app/channels/format_value.py

Payload values are JSON-shaped: null, booleans, integers, strings, arrays
and objects (an object is its key/value pairs in insertion order, keys
unique as in a Python dict). -/

inductive JVal where
  | vnull
  | vbool (b : Bool)
  | vint (n : Int)
  | vstr (s : String)
  | varr (l : List JVal)
  | vobj (kvs : List (String × JVal))

/-- `not isinstance(val, (dict, list))`. -/
def isPrimitive : JVal → Bool
  | .varr _ => false
  | .vobj _ => false
  | _ => true

/-- `val is None`. -/
def isNull : JVal → Bool
  | .vnull => true
  | _ => false

/-- Python `str()` on the values the formatter applies it to — primitives
only; the embedded code never reaches a container here. -/
def pyStr : JVal → String
  | .vnull => "None"
  | .vbool b => if b then "True" else "False"
  | .vint n => toString n
  | .vstr s => s
  | .varr _ => ""
  | .vobj _ => ""

/-- JSON escaping of one character, for the characters the embedded
payloads use. -/
def jsonEscapeChar (c : Char) : String :=
  if c = '\\' then "\\\\"
  else if c = '"' then "\\\""
  else if c = '\n' then "\\n"
  else if c = '\t' then "\\t"
  else if c = '\r' then "\\r"
  else String.singleton c

def jsonEscape (s : String) : String :=
  String.join (s.data.map jsonEscapeChar)

-- `json.dumps` with its default separators `", "` and `": "`.
mutual

def dumpJson : JVal → String
  | .vnull => "null"
  | .vbool b => if b then "true" else "false"
  | .vint n => toString n
  | .vstr s => "\"" ++ jsonEscape s ++ "\""
  | .varr l => "[" ++ ", ".intercalate (dumpItems l) ++ "]"
  | .vobj kvs => "\x7b" ++ ", ".intercalate (dumpPairs kvs) ++ "\x7d"

def dumpItems : List JVal → List String
  | [] => []
  | v :: vs => dumpJson v :: dumpItems vs

def dumpPairs : List (String × JVal) → List String
  | [] => []
  | (k, v) :: kvs => ("\"" ++ jsonEscape k ++ "\": " ++ dumpJson v) :: dumpPairs kvs

end

/-- `DISPLAY_KEYS`. -/
def DISPLAY_KEYS : List String :=
  ["full_name", "name", "login", "title", "label", "email", "html_url",
   "url", "id"]

/-- The display-key search of `format_value`: the value of the first
priority key that is present with a non-null, non-container value. -/
def displayValue (kvs : List (String × JVal)) : Option JVal :=
  (DISPLAY_KEYS.filterMap fun k =>
    match kvs.lookup k with
    | some v => if !isNull v && isPrimitive v then some v else none
    | none => none).head?

/-- `f"{s[:max_len]}..." if len(s) > max_len else s`, sliced by
characters as in Python. -/
def truncateEllipsis (s : String) (maxLen : Nat) : String :=
  if maxLen < s.length then (⟨s.data.take maxLen⟩ : String) ++ "..." else s

-- `format_value(val, max_len)`; list elements recurse with budget 80.
mutual

def format_value : JVal → Nat → String
  | .vnull, _ => ""
  | .vbool b, _ => if b then "True" else "False"
  | .vint n, _ => toString n
  | .vstr s, _ => s
  | .varr [], _ => "(empty)"
  | .varr (v :: vs), maxLen =>
    if (v :: vs).all isPrimitive then
      ", ".intercalate ((v :: vs).map pyStr)
    else
      truncateEllipsis (", ".intercalate (formatItems (v :: vs))) maxLen
  | .vobj kvs, maxLen =>
    match displayValue kvs with
    | some v => pyStr v
    | none => truncateEllipsis (dumpJson (.vobj kvs)) maxLen

def formatItems : List JVal → List String
  | [] => []
  | v :: vs => format_value v 80 :: formatItems vs

end

lemma formatItems_eq_map : ∀ l : List JVal,
    formatItems l = l.map (format_value · 80)
  | [] => rfl
  | v :: vs => by
    simp [formatItems, formatItems_eq_map vs]

/-- The object rule exactly as the claim words it: render the string form
of the value at the first key of the priority list that is present in the
object, whatever that value is. -/
def firstPresentDisplayValue (kvs : List (String × JVal)) : Option JVal :=
  (DISPLAY_KEYS.filterMap fun k => kvs.lookup k).head?

/-- Counterexample to C8 as stated: in `{"name": null, "login": "bob"}`
the first present priority key is `name`, whose string form is `None`,
but `format_value` skips null-valued keys and renders `bob`. -/
theorem C8_counterexample :
    ¬ (∀ (kvs : List (String × JVal)) (v : JVal),
        firstPresentDisplayValue kvs = some v →
        format_value (.vobj kvs) 300 = pyStr v) := by
  intro hclaim
  have h1 := hclaim [("name", .vnull), ("login", .vstr "bob")] .vnull rfl
  have h2 : format_value (.vobj [("name", .vnull), ("login", .vstr "bob")]) 300 =
      "bob" := rfl
  rw [h2] at h1
  exact (by decide : ("bob" : String) ≠ "None") h1

/-- C8 (amended): primitives stringify directly; the empty list is the
literal empty marker; a list of primitives joins with `", "`; a list with
a container formats each element recursively with budget 80, joins, and
truncates at the length budget with an ellipsis; an object renders the
string form of the value at the first priority key that is present with a
non-null, non-container value; an object with no such key renders as
compact JSON truncated at the budget. -/
theorem C8_format_value_rules :
    (∀ s : String, format_value (.vstr s) 300 = s)
    ∧ (∀ n : Int, format_value (.vint n) 300 = toString n)
    ∧ (∀ b : Bool, format_value (.vbool b) 300 = (if b then "True" else "False"))
    ∧ format_value (.varr []) 300 = "(empty)"
    ∧ (∀ l : List JVal, l ≠ [] → l.all isPrimitive = true →
      format_value (.varr l) 300 = ", ".intercalate (l.map pyStr))
    ∧ (∀ l : List JVal, l.all isPrimitive = false →
      format_value (.varr l) 300 =
        truncateEllipsis (", ".intercalate (l.map (format_value · 80))) 300)
    ∧ (∀ (kvs : List (String × JVal)) (v : JVal), displayValue kvs = some v →
      format_value (.vobj kvs) 300 = pyStr v)
    ∧ (∀ kvs : List (String × JVal), displayValue kvs = none →
      format_value (.vobj kvs) 300 =
        truncateEllipsis (dumpJson (.vobj kvs)) 300) := by
  refine ⟨fun s => rfl, fun n => rfl, fun b => rfl, rfl, ?_, ?_, ?_, ?_⟩
  · intro l hne hall
    obtain ⟨v, vs, rfl⟩ := List.exists_cons_of_ne_nil hne
    simp [format_value, hall]
  · intro l hall
    match l with
    | [] => simp at hall
    | v :: vs =>
      simp only [format_value, hall, Bool.false_eq_true, if_false,
        formatItems_eq_map]
  · intro kvs v hdisp
    simp [format_value, hdisp]
  · intro kvs hdisp
    simp [format_value, hdisp]

/-- Witness for C8: `{"name": "Ada"}` renders as `Ada`. -/
theorem C8_format_value_rules_witness :
    format_value (.vobj [("name", .vstr "Ada")]) 300 = pyStr (.vstr "Ada") :=
  C8_format_value_rules.2.2.2.2.2.2.1 [("name", .vstr "Ada")] (.vstr "Ada") rfl

/-! ### app/routers/webhooks.py — legacy notify-email gate and Turnstile -/

/-- The legacy per-inbox email gate on the no-channel path
(`webhook_email_rate:{inbox.id}`): whether the handler proceeds to send,
and whether the expiry was set.  A store error is swallowed with a warning
and the handler proceeds. -/
def legacyEmailGate (incrStore : Fetch Nat) : Bool × Bool :=
  match incrStore with
  | .down => (true, false)
  | .ok prev => (prev + 1 ≤ 10, prev = 0)

lemma get_current_key_full_fst (verify : String → String → Bool)
    (adminApiKey : String) (db : List ApiKeyRec) (store : Fetch (Option Nat))
    (apiKey : Option String) :
    (get_current_key_full verify adminApiKey db store apiKey).1 =
      get_current_key verify adminApiKey db store apiKey := by
  cases h : get_current_key verify adminApiKey db store apiKey <;>
    simp [get_current_key_full, h]

lemma get_current_key_no_lockout (verify : String → String → Bool)
    (adminApiKey : String) (db : List ApiKeyRec) (apiKey : Option String) :
    get_current_key verify adminApiKey db .down apiKey =
      get_current_key verify adminApiKey db (.ok none) apiKey := by
  cases apiKey <;> simp [get_current_key, _check_lockout]

lemma get_current_key_not_locked (verify : String → String → Bool)
    (adminApiKey : String) (db : List ApiKeyRec) (store : Fetch (Option Nat))
    (apiKey : Option String) (hlock : _check_lockout store = false) :
    get_current_key verify adminApiKey db store apiKey ≠ .tooManyAttempts := by
  cases apiKey with
  | none => simp [get_current_key]
  | some k =>
    by_cases hk : k = ""
    · simp [get_current_key, hk]
    · by_cases hadm : k = adminApiKey
      · have hk2 : adminApiKey ≠ "" := by
          rw [← hadm]
          exact hk
        simp [get_current_key, hk, hlock, hadm, hk2]
      · cases hfind : (candidateKeys db (lookupPfx k)).find?
            (fun r => verify k r.keyHash) <;>
          simp [get_current_key, hk, hlock, hadm, hfind]

lemma get_current_key_full_down_store (verify : String → String → Bool)
    (adminApiKey : String) (db : List ApiKeyRec) (apiKey : Option String) :
    (get_current_key_full verify adminApiKey db .down apiKey).2 = .down := by
  cases h : get_current_key verify adminApiKey db .down apiKey <;>
    simp [get_current_key_full, h, _clear_failure, _record_failure]

/-- C9: with the counter store unreachable, the credential guard's lockout
check and failure recording swallow the error and proceed — verification
answers exactly as with an absent counter and never TooManyAttempts, and
the store view is left unchanged rather than an error raised — and both
per-inbox email rate-limit checks swallow the error and still send; the
request rate governor, by contrast, fails closed on every non-health
path. -/
theorem C9_store_down_fail_open :
    (∀ (verify : String → String → Bool) (adminApiKey : String)
        (db : List ApiKeyRec) (apiKey : Option String),
      (get_current_key_full verify adminApiKey db .down apiKey).1 =
        (get_current_key_full verify adminApiKey db (.ok none) apiKey).1)
    ∧ (∀ (verify : String → String → Bool) (adminApiKey : String)
        (db : List ApiKeyRec) (apiKey : Option String),
      (get_current_key_full verify adminApiKey db .down apiKey).1 ≠
        .tooManyAttempts)
    ∧ (∀ (verify : String → String → Bool) (adminApiKey : String)
        (db : List ApiKeyRec) (apiKey : Option String),
      (get_current_key_full verify adminApiKey db .down apiKey).2 = .down)
    ∧ (∀ (recipients : List String), recipients ≠ [] →
      (emailPhase .down recipients true).sent = recipients
      ∧ (emailPhase .down recipients true).storeWarnLogged = true)
    ∧ (legacyEmailGate .down).1 = true
    ∧ (∀ (path : String) (now : ℚ), path ≠ "/health" →
      (rateLimitDispatch path .down now).1 = .serviceUnavailable) := by
  refine ⟨?_, ?_, ?_, ?_, by decide, ?_⟩
  · intro verify adminApiKey db apiKey
    rw [get_current_key_full_fst, get_current_key_full_fst,
      get_current_key_no_lockout]
  · intro verify adminApiKey db apiKey
    rw [get_current_key_full_fst]
    exact get_current_key_not_locked verify adminApiKey db .down apiKey rfl
  · intro verify adminApiKey db apiKey
    exact get_current_key_full_down_store verify adminApiKey db apiKey
  · intro recipients hr
    obtain ⟨a, as, rfl⟩ := List.exists_cons_of_ne_nil hr
    exact ⟨rfl, rfl⟩
  · intro path now hp
    simp [rateLimitDispatch, hp]

/-- Witness for C9: an invalid key with the store down is still answered
as invalid, with nothing recorded and no error raised. -/
theorem C9_store_down_fail_open_witness :
    (get_current_key_full (fun _ _ => false) "hf_admin" [] .down
      (some "hf_wrong")).1 =
    (get_current_key_full (fun _ _ => false) "hf_admin" [] (.ok none)
      (some "hf_wrong")).1 :=
  C9_store_down_fail_open.1 (fun _ _ => false) "hf_admin" [] (some "hf_wrong")

/-- The parsed request body of the public receive path: a dict, or some
non-dict JSON value, and possibly nothing at all (`body is None`). -/
inductive ParsedBody where
  | dictBody (kvs : List (String × String))
  | otherBody
deriving DecidableEq

/-- Outcome of the Turnstile section of `receive_webhook`; `accepted`
means the handler goes on to persist the event. -/
inductive ReceiveOutcome where
  | accepted (turnstileVerified : Bool)
  | missingToken
  | challengeFailed
  | challengeUnavailable
deriving DecidableEq

/-- The Turnstile gate: it runs only when the inbox has a truthy challenge
secret and the parsed body is a truthy (nonempty) dict; the popped token
must be truthy, and the verifier's verdict or unavailability decides. -/
def turnstileGate (tsSecret : Option String) (body : Option ParsedBody)
    (verifier : String → Fetch Bool) : ReceiveOutcome :=
  match tsSecret with
  | none => .accepted false
  | some sec =>
    if sec = "" then .accepted false
    else
      match body with
      | some (.dictBody []) => .accepted false
      | some (.dictBody kvs) =>
        match kvs.lookup "cf-turnstile-response" with
        | none => .missingToken
        | some tok =>
          if tok = "" then .missingToken
          else
            match verifier tok with
            | .down => .challengeUnavailable
            | .ok true => .accepted true
            | .ok false => .challengeFailed
      | _ => .accepted false

/-- C10: with a required challenge secret, verification runs only on a
nonempty dict body — a missing body (empty or unparseable) and an empty
dict are accepted with no verification at all, and so is a non-dict body —
while a nonempty dict body without the token is refused. -/
theorem C10_turnstile_only_on_dict
    (sec : String) (hsec : sec ≠ "") :
    (∀ verifier : String → Fetch Bool,
      turnstileGate (some sec) none verifier = .accepted false)
    ∧ (∀ verifier : String → Fetch Bool,
      turnstileGate (some sec) (some (.dictBody [])) verifier = .accepted false)
    ∧ (∀ verifier : String → Fetch Bool,
      turnstileGate (some sec) (some .otherBody) verifier = .accepted false)
    ∧ (∀ (verifier : String → Fetch Bool) (kvs : List (String × String)),
      kvs ≠ [] → kvs.lookup "cf-turnstile-response" = none →
      turnstileGate (some sec) (some (.dictBody kvs)) verifier = .missingToken)
    ∧ (∀ (verifier : String → Fetch Bool) (body : Option ParsedBody) (b : Bool),
      turnstileGate (some sec) body verifier = .accepted b →
      b = true → ∃ kvs, body = some (.dictBody kvs) ∧ kvs ≠ []) := by
  refine ⟨?_, ?_, ?_, ?_, ?_⟩
  · intro verifier
    simp [turnstileGate, hsec]
  · intro verifier
    simp [turnstileGate, hsec]
  · intro verifier
    simp [turnstileGate, hsec]
  · intro verifier kvs hk hl
    obtain ⟨p, ps, rfl⟩ := List.exists_cons_of_ne_nil hk
    simp [turnstileGate, hsec, hl]
  · intro verifier body b hgate hb
    subst hb
    match body with
    | none => simp [turnstileGate, hsec] at hgate
    | some .otherBody => simp [turnstileGate, hsec] at hgate
    | some (.dictBody []) => simp [turnstileGate, hsec] at hgate
    | some (.dictBody (p :: ps)) => exact ⟨p :: ps, rfl, by simp⟩

/-- Witness for C10: a request with no parseable body is accepted without
verification even though the inbox requires a challenge secret. -/
theorem C10_turnstile_only_on_dict_witness :
    turnstileGate (some "ts-secret") none (fun _ => .ok false) =
      .accepted false :=
  (C10_turnstile_only_on_dict "ts-secret" (by decide)).1 (fun _ => .ok false)

end HookForms
